import Mathlib

/-
Verification development for the Vcelebrate inventory projection and
milestone-aggregation engine (src/src/utils/inventory_projections.py and
config/settings.py), shallowly embedded in Lean 4.

Modelling conventions:
* A spreadsheet/DB cell is a `Value`: missing data (Python `None` / pandas
  `NaN`) is `Value.none`, numeric cells are `Value.int` (integer-valued cells;
  float cells are outside the model), text cells are `Value.str`.
* Python dictionaries are association lists with first-match lookup; updates
  keep the position of an existing key and append new keys at the end, which
  matches CPython's insertion-ordered dict semantics.
* The external permissive date parser (`dateutil.parser.parse(s).month`, with
  any raised exception mapped to `none`) is passed in as a parameter
  `dp : String → Option Int`; the repository only calls it, it is not part of
  the repository's code.
* Python `str.strip()`, `str.lower()`, `int(...)` and the substring test
  `a in b` are re-implemented structurally on character lists (`pyStrip`,
  `pyLower`, `pyStrToInt`, `strContainsSub`) so that concrete runs reduce in
  the kernel.  They agree with Python on the ASCII data handled here
  (Python's `int(...)` additionally allows underscores between digits and
  strips Unicode whitespace; no such input occurs in the repository's data).
-/

namespace Vcelebrate

/-- Scalar cell value as produced by the upstream parser / database rows. -/
inductive Value where
  | none : Value
  | int : Int → Value
  | str : String → Value
deriving DecidableEq

/-- Python truthiness of a scalar: `None`, `0` and `""` are falsy. -/
def Value.truthy : Value → Bool
  | Value.none => false
  | Value.int n => if n = 0 then false else true
  | Value.str s => if s = "" then false else true

/-- Models `pd.isna(v)`: true exactly for the missing-data value. -/
def Value.isNa : Value → Bool
  | Value.none => true
  | _ => false

/-- Models Python `str(v)` on the scalar values of the model. -/
def Value.toPyStr : Value → String
  | Value.none => "None"
  | Value.int n => toString n
  | Value.str s => s

/-- Models Python `str.strip()` (ASCII whitespace on both ends). -/
def pyStrip (s : String) : String :=
  String.mk (((s.data.dropWhile Char.isWhitespace).reverse.dropWhile Char.isWhitespace).reverse)

/-- Models Python `str.lower()` (ASCII case folding). -/
def pyLower (s : String) : String :=
  String.mk (s.data.map Char.toLower)

/-- Does the first character list start with the second one? -/
def leadMatch : List Char → List Char → Bool
  | _, [] => true
  | [], _ :: _ => false
  | a :: as, b :: bs => a == b && leadMatch as bs

/-- Does the pattern occur as a contiguous run inside the list? -/
def subMatch : List Char → List Char → Bool
  | [], pat => pat.isEmpty
  | a :: as, pat => leadMatch (a :: as) pat || subMatch as pat

/-- Models the Python substring test `pat in s`. -/
def strContainsSub (s pat : String) : Bool :=
  subMatch s.data pat.data

/-- Accumulates a decimal digit string into a natural number. -/
def digitsToNatAux : List Char → Nat → Option Nat
  | [], acc => some acc
  | c :: cs, acc =>
      if c.isDigit then digitsToNatAux cs (acc * 10 + (c.toNat - 48)) else Option.none

/-- Parses a non-empty all-digit character list; `none` otherwise. -/
def digitsToNat : List Char → Option Nat
  | [] => Option.none
  | l => digitsToNatAux l 0

/-- Models Python `int(s)` on an already stripped string: optional sign
followed by decimal digits, `none` when `int` would raise `ValueError`. -/
def pyStrToInt (s : String) : Option Int :=
  match s.data with
  | '-' :: rest => (digitsToNat rest).map (fun n => -(n : Int))
  | '+' :: rest => (digitsToNat rest).map (fun n => (n : Int))
  | l => (digitsToNat l).map (fun n => (n : Int))

/-- The `LOCATION_ALIASES` table of `config/settings.py` (lines 73-91),
including the duplicated `"Indore YIT"` literal of the source (both
occurrences map to the same canonical name, so first-match lookup agrees
with the Python dict). -/
def LOCATION_ALIASES : List (String × String) :=
  [ ("YASH IT Part", "Indore-YASH IT Park-SC-DC"),
    ("Indore YIT", "Indore-YASH IT Park-SC-DC"),
    ("YIT", "Indore-YASH IT Park-SC-DC"),
    ("Yash IT Park", "Indore-YASH IT Park-SC-DC"),
    ("YASH IT Park", "Indore-YASH IT Park-SC-DC"),
    ("Mindspace", "Hyderabad-Mindspace I-DC"),
    ("BTC", "Indore-BTC-CO"),
    ("Indore YIT", "Indore-YASH IT Park-SC-DC"),
    ("CIT", "Indore-YASH IT Park-SC-DC"),
    ("Hyd", "Hyderabad-Mindspace I-DC"),
    ("Magarpatta", "Pune"),
    ("MIDC", "Hyderabad-Mindspace I-DC"),
    ("BNG", "Bangalore"),
    ("Pune-Hinjewadi III-DC", "Pune"),
    ("Indore-Crystal IT Park-DC", "Indore-YASH IT Park-SC-DC"),
    ("Bangalore-Whitefield-DC", "Bangalore"),
    ("Bangalore-BHIVE-DC", "Bangalore") ]

/-- First-match lookup in an insertion-ordered dictionary
(models Python `d[k]` / membership). -/
def dictGet {α : Type} : List (String × α) → String → Option α
  | [], _ => Option.none
  | (k1, v) :: rest, k => if k1 = k then some v else dictGet rest k

/-- Models Python `d.get(k, dflt)`. -/
def dictGetD {α : Type} (m : List (String × α)) (k : String) (dflt : α) : α :=
  (dictGet m k).getD dflt

/-- Models Python `d[k] = v`: update in place if the key exists, else append. -/
def dictSet {α : Type} : List (String × α) → String → α → List (String × α)
  | [], k, v => [(k, v)]
  | (k1, v1) :: rest, k, v =>
      if k1 = k then (k1, v) :: rest else (k1, v1) :: dictSet rest k v

/-- Models `LOCATION_ALIASES.get(s, s)`. -/
def aliasGetD (s : String) : String :=
  dictGetD LOCATION_ALIASES s s

/-- Embeds `normalize_location` (inventory_projections.py lines 52-58):
falsy or missing input maps to `"Unknown"`, otherwise the stripped string is
looked up in the alias table with the stripped string itself as default. -/
def normalize_location (location_name : Value) : String :=
  if location_name.truthy = false ∨ location_name.isNa = true then "Unknown"
  else aliasGetD (pyStrip location_name.toPyStr)

/-- One employee record: a mapping column-name to scalar value. -/
abbrev Record := List (String × Value)

/-- Lookup of one cell of a pandas row: a key the record lacks reads as the
missing value `NaN` (pandas fills absent keys of `pd.DataFrame(list-of-dicts)`
with `NaN`). -/
def rowGet (row : Record) (col : String) : Value :=
  dictGetD row col Value.none

/-- Column set of `pd.DataFrame(records)`: union of the record keys in order
of first appearance. -/
def dfColumns (records : List Record) : List String :=
  records.foldl
    (fun cols r =>
      r.foldl (fun cols2 kv => if cols2.contains kv.1 then cols2 else cols2 ++ [kv.1]) cols)
    []

/-- First field of the prioritized synonym list present among the columns
(models `next((f for f in fields if f in df.columns), None)`). -/
def findCol (fields : List String) (cols : List String) : Option String :=
  fields.find? (fun f => cols.contains f)

/-- Location column synonyms (inventory_projections.py line 74). -/
def location_fields : List String :=
  ["Place of posting", "Base Location Name", "Base Location  Name", "Location"]

/-- Date-of-birth column synonyms (line 75). -/
def dob_fields : List String :=
  ["Date of Birth (as per Records)", "DOB", "Date of Birth"]

/-- Date-of-marriage column synonyms (line 76). -/
def dom_fields : List String :=
  ["Date of Marriage", "Marriage Date"]

/-- Date-of-joining column synonyms (line 77). -/
def doj_fields : List String :=
  ["Employment Details Date of Joining", "Date of Joining", "DOJ"]

/-- Pre-computed birth-month column synonyms (line 78). -/
def dob_month_fields : List String :=
  ["MM Birth - WE Celebrate", "Birth Month"]

/-- Pre-computed service-month column synonyms (line 79). -/
def doj_month_fields : List String :=
  ["MM Service Completion - WE Celebrate", "Service Month"]

/-- Embeds `extract_month_from_date` (lines 20-49).  `dp` is the external
permissive date parser (`dateutil.parser.parse(s).month`, exceptions mapped
to `none`).  Falsy or missing values yield `none`; an integer cell yields its
value when it lies in 1-12 and `none` otherwise; a string cell is stripped,
the literals `nan`/`nat`/`none`/`` (case-insensitive) yield `none`, an integer
string in 1-12 yields its value, and everything else (including an integer
string outside 1-12) falls through to the permissive date parser. -/
def extract_month_from_date (dp : String → Option Int) (date_value : Value) : Option Int :=
  if date_value.truthy = false ∨ date_value.isNa = true then Option.none
  else
    match date_value with
    | Value.int n => if 1 ≤ n ∧ n ≤ 12 then some n else Option.none
    | Value.str s =>
        let date_str := pyStrip s
        if date_str = "" ∨ pyLower date_str = "nan" ∨ pyLower date_str = "nat" ∨
            pyLower date_str = "none" then Option.none
        else
          match pyStrToInt date_str with
          | some n => if 1 ≤ n ∧ n ≤ 12 then some n else dp date_str
          | Option.none => dp date_str
    | Value.none => Option.none

/-- Month of a record for one milestone type, given the resolved month column
and date column of the dataset: the pre-computed month column is used whenever
the dataset has one, else the date column, else no month (mirrors the
column-level `if dob_month_col ... elif dob_col ...` chains of lines
101-109 / 118-125; the membership test `col in row` of those lines is always
true for a resolved column, since every dataframe row carries every column). -/
def monthFromCols (dp : String → Option Int) (date_col month_col : Option String)
    (row : Record) : Option Int :=
  match month_col with
  | some c => extract_month_from_date dp (rowGet row c)
  | Option.none =>
      match date_col with
      | some c => extract_month_from_date dp (rowGet row c)
      | Option.none => Option.none

/-- Resolved location of one record (lines 95-99): a falsy or missing cell
becomes `"Unknown"`, the string form is stripped and normalized. -/
def rowLocation (location_col : String) (row : Record) : String :=
  let v := rowGet row location_col
  let s := if v.truthy = false ∨ v.isNa = true then "Unknown" else v.toPyStr
  normalize_location (Value.str (pyStrip s))

/-- Models `d[location] = d.get(location, 0) + 1` on a counts dictionary. -/
def bump (m : List (String × Nat)) (k : String) : List (String × Nat) :=
  dictSet m k (dictGetD m k 0 + 1)

/-- The three location-wise count dictionaries returned by the milestone
counter. -/
structure MilestoneCounts where
  birthday : List (String × Nat)
  anniversary : List (String × Nat)
  service : List (String × Nat)
deriving DecidableEq

/-- Per-record body of the counting loop (lines 94-125): resolve the location
once, then for each of the three milestone types independently bump that
location's counter exactly when the extracted month equals the target month
(anniversaries have no pre-computed month column, so their month column is
`none`). -/
def countRow (dp : String → Option Int) (location_col : String)
    (dob_col dob_month_col dom_col doj_col doj_month_col : Option String)
    (target_month : Int) (acc : MilestoneCounts) (row : Record) : MilestoneCounts :=
  let location := rowLocation location_col row
  { birthday :=
      if monthFromCols dp dob_col dob_month_col row = some target_month then
        bump acc.birthday location
      else acc.birthday,
    anniversary :=
      if monthFromCols dp dom_col Option.none row = some target_month then
        bump acc.anniversary location
      else acc.anniversary,
    service :=
      if monthFromCols dp doj_col doj_month_col row = some target_month then
        bump acc.service location
      else acc.service }

/-- Embeds `calculate_monthly_milestone_counts` (lines 61-127): resolve the
synonym columns once per dataset, return three empty mappings when no
location column exists, otherwise fold the per-record counting over all
records.  `target_year` is accepted and ignored, as in the source. -/
def calculate_monthly_milestone_counts (dp : String → Option Int)
    (milestone_data : List Record) (target_month target_year : Int) : MilestoneCounts :=
  match findCol location_fields (dfColumns milestone_data) with
  | Option.none => { birthday := [], anniversary := [], service := [] }
  | some location_col =>
      milestone_data.foldl
        (countRow dp location_col
          (findCol dob_fields (dfColumns milestone_data))
          (findCol dob_month_fields (dfColumns milestone_data))
          (findCol dom_fields (dfColumns milestone_data))
          (findCol doj_fields (dfColumns milestone_data))
          (findCol doj_month_fields (dfColumns milestone_data))
          target_month)
        { birthday := [], anniversary := [], service := [] }

/-- Sum of the values of a counts dictionary. -/
def sumCounts (m : List (String × Nat)) : Nat :=
  (m.map (fun kv => kv.2)).sum

/-- Birth month the aggregation resolves for one record of a dataset: through
the dataset's pre-computed month column when one exists, else through its
date-of-birth column, else none. -/
def resolved_birth_month (dp : String → Option Int) (records : List Record)
    (r : Record) : Option Int :=
  monthFromCols dp (findCol dob_fields (dfColumns records))
    (findCol dob_month_fields (dfColumns records)) r

/-- One row of the inventory table as returned by the data layer:
`{'location': ..., 'workbook': ..., 'data': {...}}` (the unused `quarter`
column is omitted). -/
structure InventoryItem where
  location : Value
  workbook : String
  data : List (String × Value)

/-- Key test of the quantity-column scan (line 147):
`"quantity" in key.lower() and "received" in key.lower()`. -/
def hasQuantityKey (k : String) : Bool :=
  strContainsSub (pyLower k) "quantity" && strContainsSub (pyLower k) "received"

/-- First key of the record's data that looks like a quantity column
(lines 145-149). -/
def quantityCol (data : List (String × Value)) : Option String :=
  (data.map (fun kv => kv.1)).find? hasQuantityKey

/-- Models Python `int(v)` on a scalar: integers pass through, strings are
parsed as stripped integer literals, `None` raises (`none`). -/
def pyIntOfValue : Value → Option Int
  | Value.int n => some n
  | Value.str s => pyStrToInt (pyStrip s)
  | Value.none => Option.none

/-- Quantity of one cell (line 151-155):
`int(v) if v else 0`, with `ValueError`/`TypeError` absorbed to 0. -/
def quantityOf (v : Value) : Int :=
  if v.truthy = true then (pyIntOfValue v).getD 0 else 0

/-- Workbook-label to gift-type classification (lines 157-164): substring
matches tried in order `birthday`, then `as on` or `anniversary`, then
`service`; anything else matches no gift type. -/
def classify_workbook (workbook : String) : Option String :=
  if strContainsSub (pyLower workbook) "birthday" = true then some "birthday"
  else if strContainsSub (pyLower workbook) "as on" = true ∨
      strContainsSub (pyLower workbook) "anniversary" = true then some "anniversary"
  else if strContainsSub (pyLower workbook) "service" = true then some "service_completion"
  else Option.none

/-- Inventory snapshot: insertion-ordered mapping
location to (gift type to quantity). -/
abbrev Snapshot := List (String × List (String × Int))

/-- Body of the snapshot-building loop for one inventory row (lines 139-171):
rows without a quantity column or with an unclassifiable workbook label are
skipped; otherwise the parsed quantity is added onto the running total of the
(normalized location, gift type) cell. -/
def stepInv (summary : Snapshot) (item : InventoryItem) : Snapshot :=
  match quantityCol item.data with
  | Option.none => summary
  | some qc =>
      match classify_workbook item.workbook with
      | Option.none => summary
      | some gift_type =>
          let loc := normalize_location item.location
          let inner := dictGetD summary loc []
          dictSet summary loc
            (dictSet inner gift_type (dictGetD inner gift_type 0 + quantityOf (dictGetD item.data qc Value.none)))

/-- Full (unfiltered) inventory snapshot. -/
def buildInventorySummary (inventory_data : List InventoryItem) : Snapshot :=
  inventory_data.foldl stepInv []

/-- Embeds `get_current_inventory_by_location` (lines 130-178): builds the
full snapshot and, when a truthy location argument is given, restricts the
result to that single normalized key, present with an empty mapping when no
records matched. -/
def get_current_inventory_by_location (inventory_data : List InventoryItem)
    (location : Option String) : Snapshot :=
  match location with
  | some loc =>
      if loc = "" then buildInventorySummary inventory_data
      else
        [ (normalize_location (Value.str loc),
           dictGetD (buildInventorySummary inventory_data) (normalize_location (Value.str loc)) []) ]
  | Option.none => buildInventorySummary inventory_data

/-- Parsed quantity one inventory row contributes: 0 when the row has no
quantity column (the loop skips it) or the cell is falsy or unparseable. -/
def record_quantity (it : InventoryItem) : Int :=
  match quantityCol it.data with
  | some qc => quantityOf (dictGetD it.data qc Value.none)
  | Option.none => 0

/-- The configured reorder threshold
(`LOW_INVENTORY_THRESHOLD`, config/settings.py line 62, default 40). -/
def LOW_INVENTORY_THRESHOLD : Int := 40

/-- One row of the monthly depletion ledger (lines 327-332). -/
structure LedgerEntry where
  month : String
  year : Int
  usage : Nat
  remaining_stock : Int
deriving DecidableEq

/-- The `calendar.month_name` table (index 0 is the empty string). -/
def month_name_list : List String :=
  ["", "January", "February", "March", "April", "May", "June",
   "July", "August", "September", "October", "November", "December"]

/-- Models `calendar.month_name[i]` for the indices 0-12 the simulator
produces. -/
def monthName (i : Int) : String :=
  if 0 ≤ i ∧ i < 13 then month_name_list.getD i.toNat "" else ""

/-- Ledger entry for month offset `off` (lines 307-309 and 327-332):
the simulated month wraps 12 to 1 and the year advances on wrap. -/
def mkLedgerEntry (current_month current_year : Int) (off : Nat) (usage : Nat)
    (remaining : Int) : LedgerEntry :=
  { month := monthName (((current_month - 1 + (off : Int)) % 12) + 1),
    year := current_year + ((current_month - 1 + (off : Int)) / 12),
    usage := usage,
    remaining_stock := remaining }

/-- Usage of one location for one gift type (lines 317-322): the final
`else` branch reads the service-completion counts for every gift type other
than `"birthday"` and `"anniversary"`. -/
def usageFor (counts : MilestoneCounts) (gift_type loc : String) : Nat :=
  if gift_type = "birthday" then dictGetD counts.birthday loc 0
  else if gift_type = "anniversary" then dictGetD counts.anniversary loc 0
  else dictGetD counts.service loc 0

/-- Monthly usage at offset `off` from the simulation start (lines 306-322):
the milestone counts of the simulated month, read for this location. -/
def monthUsage (dp : String → Option Int) (milestone_data : List Record)
    (gift_type nloc : String) (current_month current_year : Int) (off : Nat) : Nat :=
  usageFor
    (calculate_monthly_milestone_counts dp milestone_data
      (((current_month - 1 + (off : Int)) % 12) + 1)
      (current_year + ((current_month - 1 + (off : Int)) / 12)))
    gift_type nloc

/-- The depletion loop (lines 306-337): at each offset subtract the month's
usage, append a ledger entry, and stop right after the first entry whose
remaining stock is strictly below the threshold.  Returns the ledger and the
offset of the first breach (when one occurred within the fuel). -/
def simLoop (u : Nat → Nat) (mk : Nat → Nat → Int → LedgerEntry) (th : Int) :
    Nat → Nat → Int → List LedgerEntry × Option Nat
  | _, 0, _ => ([], Option.none)
  | off, fuel + 1, remaining =>
      if remaining - (u off : Int) < th then
        ([mk off (u off) (remaining - (u off : Int))], some off)
      else
        (mk off (u off) (remaining - (u off : Int)) ::
            (simLoop u mk th (off + 1) fuel (remaining - (u off : Int))).1,
         (simLoop u mk th (off + 1) fuel (remaining - (u off : Int))).2)

/-- Total usage of the `n` months starting at offset `off`. -/
def sumUsage (u : Nat → Nat) (off : Nat) : Nat → Nat
  | 0 => 0
  | n + 1 => sumUsage u off n + u (off + n)

/-- The projection record assembled by `calculate_months_until_restock`
(lines 299-356): run the depletion loop from the current stock; when no
breach occurred within `max_months` the returned `months_until_restock` is
set to `max_months` itself (lines 339-344), never left unset.  The
`projection_range` display string of line 355 is not modelled. -/
structure RestockProjection where
  location : String
  normalized_location : String
  gift_type : String
  current_stock : Int
  threshold : Int
  months_until_restock : Option Nat
  restock_status : String
  monthly_breakdown : List LedgerEntry
deriving DecidableEq

/-- Assembles the projection for a given starting stock. -/
def restockProjectionOf (location nloc gift_type : String) (u : Nat → Nat)
    (mk : Nat → Nat → Int → LedgerEntry) (max_months : Nat) (th stock : Int) :
    RestockProjection :=
  { location := location,
    normalized_location := nloc,
    gift_type := gift_type,
    current_stock := stock,
    threshold := th,
    months_until_restock := some (((simLoop u mk th 0 max_months stock).2).getD max_months),
    restock_status :=
      match (simLoop u mk th 0 max_months stock).2 with
      | Option.none => "not_needed_within_projection"
      | some _ => "restock_needed",
    monthly_breakdown := (simLoop u mk th 0 max_months stock).1 }

/-- Result of the restock simulator: either the error dictionary of lines
292-296 or a normal projection. -/
inductive RestockOutcome where
  | error (message : String) (normalized_location : String) : RestockOutcome
  | ok (p : RestockProjection) : RestockOutcome
deriving DecidableEq

/-- Embeds `calculate_months_until_restock` (lines 264-356): normalize the
location, fetch the location-filtered snapshot, return the error dictionary
when the normalized location is not a key of it, and otherwise simulate from
the stock recorded for the requested gift type (0 when the filtered entry has
none).  The threshold and the current month/year are the injected
configuration and clock (`LOW_INVENTORY_THRESHOLD` and `datetime.now()` in
the source). -/
def calculate_months_until_restock (dp : String → Option Int)
    (milestone_data : List Record) (inventory_data : List InventoryItem)
    (location gift_type : String) (max_months : Nat) (th : Int)
    (current_month current_year : Int) : RestockOutcome :=
  match dictGet
      (get_current_inventory_by_location inventory_data
        (some (normalize_location (Value.str location))))
      (normalize_location (Value.str location)) with
  | Option.none =>
      RestockOutcome.error ("No inventory found for location: " ++ location)
        (normalize_location (Value.str location))
  | some location_inventory =>
      RestockOutcome.ok
        (restockProjectionOf location (normalize_location (Value.str location)) gift_type
          (monthUsage dp milestone_data gift_type
            (normalize_location (Value.str location)) current_month current_year)
          (mkLedgerEntry current_month current_year) max_months th
          (dictGetD location_inventory gift_type 0))

/-- Did the simulator return a normal projection (not the error dictionary)? -/
def RestockOutcome.isOk : RestockOutcome → Bool
  | RestockOutcome.ok _ => true
  | RestockOutcome.error _ _ => false

/-- The `months_until_restock` field of a normal result. -/
def RestockOutcome.monthsOf : RestockOutcome → Option Nat
  | RestockOutcome.ok p => p.months_until_restock
  | RestockOutcome.error _ _ => Option.none

/-- The `monthly_breakdown` ledger of a normal result. -/
def RestockOutcome.ledgerOf : RestockOutcome → List LedgerEntry
  | RestockOutcome.ok p => p.monthly_breakdown
  | RestockOutcome.error _ _ => []

/-- The `current_stock` field of a normal result. -/
def RestockOutcome.stockOf : RestockOutcome → Int
  | RestockOutcome.ok p => p.current_stock
  | RestockOutcome.error _ _ => 0

/-- The `restock_status` field of a normal result. -/
def RestockOutcome.statusOf : RestockOutcome → String
  | RestockOutcome.ok p => p.restock_status
  | RestockOutcome.error _ _ => ""

/-- Total of the usage column over the first `n` ledger rows. -/
def ledgerUsageSum (es : List LedgerEntry) (n : Nat) : Int :=
  ((es.take n).map (fun e => (e.usage : Int))).sum

/-! Concrete fixtures used by the counterexamples and witnesses below. -/

/-- Date parser for runs whose data never needs the external parser (every
call of `dateutil.parser.parse` on the strings occurring in these fixtures
would raise, which the source maps to no month). -/
def dp0 : String → Option Int := fun _ => Option.none

/-- The external permissive parser restricted to the strings of the C4
fixtures: the ISO date `2000-03-15` parses to month 3, everything else
(notably `bogus`) raises. -/
def dpC4 : String → Option Int :=
  fun s => if s = "2000-03-15" then some 3 else Option.none

/-- A milestone record with a normalized location and an integer birth-month
cell. -/
def mkRec (m : Int) : Record :=
  [("Place of posting", Value.str "Pune"), ("MM Birth - WE Celebrate", Value.int m)]

/-- Roster producing a birthday usage of 5 in each of the first four simulated
months (simulation starting in January). -/
def msC3 : List Record :=
  List.replicate 5 (mkRec 1) ++ List.replicate 5 (mkRec 2) ++
    List.replicate 5 (mkRec 3) ++ List.replicate 5 (mkRec 4)

/-- One inventory row: 50 birthday gifts at Pune. -/
def invC3 : List InventoryItem :=
  [ { location := Value.str "Pune", workbook := "Birthday",
      data := [("Quantity Received", Value.int 50)] } ]

/-- One inventory row: 100 birthday gifts at Pune. -/
def invPune100 : List InventoryItem :=
  [ { location := Value.str "Pune", workbook := "Birthday",
      data := [("Quantity Received", Value.int 100)] } ]

/-- One inventory row: 100 service-completion gifts at Pune. -/
def invService : List InventoryItem :=
  [ { location := Value.str "Pune", workbook := "Service Completion",
      data := [("Quantity Received", Value.int 100)] } ]

/-- A record whose pre-computed month cell is unparseable while its full
date-of-birth cell carries a valid March date. -/
def recC4 : Record :=
  [("Place of posting", Value.str "A"),
   ("MM Birth - WE Celebrate", Value.str "bogus"),
   ("Date of Birth (as per Records)", Value.str "2000-03-15")]

/-- Roster with a month column: one parseable March cell and one unparseable
cell. -/
def recsC4w : List Record :=
  [ [("Place of posting", Value.str "A"), ("MM Birth - WE Celebrate", Value.int 3)],
    [("Place of posting", Value.str "A"), ("MM Birth - WE Celebrate", Value.str "bogus")] ]

/-- Roster with a pre-computed service-completion month column: one March
cell and one unparseable cell. -/
def recsC4s : List Record :=
  [ [("Place of posting", Value.str "A"),
     ("MM Service Completion - WE Celebrate", Value.int 3)],
    [("Place of posting", Value.str "A"),
     ("MM Service Completion - WE Celebrate", Value.str "bogus")] ]

/-- Roster with no pre-computed month column at all: the birth month can only
come from full date parsing of the date-of-birth column. -/
def recsC4f : List Record :=
  [ [("Place of posting", Value.str "A"),
     ("Date of Birth (as per Records)", Value.str "2000-03-15")],
    [("Place of posting", Value.str "A"),
     ("Date of Birth (as per Records)", Value.str "bogus")] ]

/-- Synthetic roster of the spec's month-aggregation scenario: three
employees at location A with birth months 3, 3, 7 and one at location B with
birth month 3. -/
def recsC8 : List Record :=
  [ [("Place of posting", Value.str "A"), ("MM Birth - WE Celebrate", Value.int 3)],
    [("Place of posting", Value.str "A"), ("MM Birth - WE Celebrate", Value.int 3)],
    [("Place of posting", Value.str "A"), ("MM Birth - WE Celebrate", Value.int 7)],
    [("Place of posting", Value.str "B"), ("MM Birth - WE Celebrate", Value.int 3)] ]

/-! Helper lemmas about the dictionary model. -/

theorem dictGet_dictSet_self {α : Type} (m : List (String × α)) (k : String) (v : α) :
    dictGet (dictSet m k v) k = some v := by
  induction m with
  | nil => simp [dictGet, dictSet]
  | cons kv rest ih =>
      by_cases h : kv.1 = k
      · simp [dictGet, dictSet, h]
      · simp [dictGet, dictSet, h, ih]

theorem dictGet_dictSet_ne {α : Type} (m : List (String × α)) (k k1 : String) (v : α)
    (h : k ≠ k1) : dictGet (dictSet m k v) k1 = dictGet m k1 := by
  induction m with
  | nil => simp [dictGet, dictSet, h]
  | cons kv rest ih =>
      by_cases h2 : kv.1 = k
      · simp [dictGet, dictSet, h2, h]
      · by_cases h3 : kv.1 = k1 <;> simp [dictGet, dictSet, h2, h3, Ne.symm h, ih]

theorem dictGetD_dictSet_self {α : Type} (m : List (String × α)) (k : String) (v d : α) :
    dictGetD (dictSet m k v) k d = v := by
  simp [dictGetD, dictGet_dictSet_self]

theorem dictGetD_dictSet_ne {α : Type} (m : List (String × α)) (k k1 : String) (v d : α)
    (h : k ≠ k1) : dictGetD (dictSet m k v) k1 d = dictGetD m k1 d := by
  simp [dictGetD, dictGet_dictSet_ne m k k1 v h]

theorem sumCounts_bump (m : List (String × Nat)) (k : String) :
    sumCounts (bump m k) = sumCounts m + 1 := by
  induction m with
  | nil => simp [sumCounts, bump, dictSet, dictGetD, dictGet]
  | cons kv rest ih =>
      by_cases h : kv.1 = k
      · simp [sumCounts, bump, dictSet, dictGetD, dictGet, h]
        omega
      · have ih2 := ih
        simp [sumCounts, bump, dictSet, dictGetD, dictGet, h] at ih2 ⊢
        omega

/-! Helper lemmas about the depletion loop. -/

theorem sumUsage_succ_left (u : Nat → Nat) (off n : Nat) :
    sumUsage u off (n + 1) = u off + sumUsage u (off + 1) n := by
  induction n with
  | zero => simp [sumUsage]
  | succ n ih =>
      show sumUsage u off (n + 1) + u (off + (n + 1))
          = u off + (sumUsage u (off + 1) n + u (off + 1 + n))
      rw [ih, show off + (n + 1) = off + 1 + n from by omega]
      omega

theorem sumUsage_mono (u : Nat → Nat) (off : Nat) {n m : Nat} (h : n ≤ m) :
    sumUsage u off n ≤ sumUsage u off m := by
  induction m with
  | zero => simp_all
  | succ m ih =>
      rcases Nat.lt_or_ge n (m + 1) with h2 | h2
      · have := ih (by omega)
        simp [sumUsage]
        omega
      · have : n = m + 1 := by omega
        simp [this]

theorem simLoop_no_breach (u : Nat → Nat) (mk : Nat → Nat → Int → LedgerEntry) (th : Int) :
    ∀ (fuel off : Nat) (r : Int),
      (∀ i, i < fuel → ¬(r - (sumUsage u off (i + 1) : Int) < th)) →
      (simLoop u mk th off fuel r).2 = Option.none ∧
        (simLoop u mk th off fuel r).1.length = fuel := by
  intro fuel
  induction fuel with
  | zero => intro off r _; simp [simLoop]
  | succ fuel ih =>
      intro off r h
      have h0 : ¬ (r - (u off : Int) < th) := by
        have := h 0 (Nat.succ_pos _)
        simpa [sumUsage] using this
      have hrec := ih (off + 1) (r - (u off : Int)) (by
        intro i hi
        have h2 := h (i + 1) (by omega)
        rw [show i + 1 + 1 = (i + 1) + 1 from rfl, sumUsage_succ_left] at h2
        push_cast at h2 ⊢
        omega)
      rw [simLoop, if_neg h0]
      simpa using hrec

theorem simLoop_first_breach (u : Nat → Nat) (mk : Nat → Nat → Int → LedgerEntry) (th : Int) :
    ∀ (k fuel off : Nat) (r : Int), k < fuel →
      (∀ i, i < k → ¬(r - (sumUsage u off (i + 1) : Int) < th)) →
      (r - (sumUsage u off (k + 1) : Int) < th) →
      (simLoop u mk th off fuel r).2 = some (off + k) ∧
        (simLoop u mk th off fuel r).1.length = k + 1 := by
  intro k
  induction k with
  | zero =>
      intro fuel off r hk _ hat
      cases fuel with
      | zero => omega
      | succ fuel =>
          have hat0 : r - (u off : Int) < th := by simpa [sumUsage] using hat
          rw [simLoop, if_pos hat0]
          simp
  | succ k ih =>
      intro fuel off r hk hbefore hat
      cases fuel with
      | zero => omega
      | succ fuel =>
          have h0 : ¬ (r - (u off : Int) < th) := by
            have := hbefore 0 (Nat.succ_pos _)
            simpa [sumUsage] using this
          have hrec := ih fuel (off + 1) (r - (u off : Int)) (by omega)
            (by
              intro i hi
              have h2 := hbefore (i + 1) (by omega)
              rw [show i + 1 + 1 = (i + 1) + 1 from rfl, sumUsage_succ_left] at h2
              push_cast at h2 ⊢
              omega)
            (by
              rw [show k + 1 + 1 = (k + 1) + 1 from rfl, sumUsage_succ_left] at hat
              push_cast at hat ⊢
              omega)
          rw [simLoop, if_neg h0]
          refine ⟨?_, ?_⟩
          · rw [show off + (k + 1) = off + 1 + k from by omega]
            simpa using hrec.1
          · simpa using hrec.2

theorem simLoop_get? (u : Nat → Nat) (mk : Nat → Nat → Int → LedgerEntry) (th : Int) :
    ∀ (fuel off : Nat) (r : Int) (i : Nat) (e : LedgerEntry),
      (simLoop u mk th off fuel r).1.get? i = some e →
      e = mk (off + i) (u (off + i)) (r - (sumUsage u off (i + 1) : Int)) := by
  intro fuel
  induction fuel with
  | zero => intro off r i e h; simp [simLoop] at h
  | succ fuel ih =>
      intro off r i e h
      by_cases hb : r - (u off : Int) < th
      · rw [simLoop, if_pos hb] at h
        cases i with
        | zero =>
            simp at h
            simp [← h, sumUsage]
        | succ i => simp at h
      · rw [simLoop, if_neg hb] at h
        cases i with
        | zero =>
            simp at h
            simp [← h, sumUsage]
        | succ i =>
            simp only [List.get?_cons_succ] at h
            have h2 := ih (off + 1) (r - (u off : Int)) i e h
            have harg : r - (u off : Int) - (sumUsage u (off + 1) (i + 1) : Int)
                = r - (sumUsage u off (i + 1 + 1) : Int) := by
              have hs := sumUsage_succ_left u off (i + 1)
              rw [hs]
              push_cast
              ring
            rw [h2, show off + 1 + i = off + (i + 1) from by omega, harg]

theorem ledger_take_sum (es : List LedgerEntry) (f : Nat → Nat)
    (hpt : ∀ i e, es.get? i = some e → e.usage = f i) :
    ∀ n, n ≤ es.length → ledgerUsageSum es n = (sumUsage f 0 n : Int) := by
  intro n
  induction n with
  | zero => intro _; simp [ledgerUsageSum, sumUsage]
  | succ n ih =>
      intro hn
      have hlt : n < es.length := by omega
      have hget : es.get? n = some (es.get ⟨n, hlt⟩) := List.get?_eq_get hlt
      have hu := hpt n _ hget
      have ihn := ih (by omega)
      unfold ledgerUsageSum at ihn ⊢
      rw [List.get?_eq_getElem?] at hget
      rw [List.take_succ, hget]
      simp only [Option.toList_some, List.map_append, List.sum_append, List.map_cons,
        List.map_nil, List.sum_cons, List.sum_nil]
      rw [ihn, hu, show sumUsage f 0 (n + 1) = sumUsage f 0 n + f (0 + n) from rfl]
      push_cast
      simp

/-! Helper lemmas about the inventory snapshot. -/

theorem stepInv_getD (acc : Snapshot) (it : InventoryItem) (loc gt : String) :
    dictGetD (dictGetD (stepInv acc it) loc []) gt 0
      = dictGetD (dictGetD acc loc []) gt 0 +
          (if normalize_location it.location = loc ∧ classify_workbook it.workbook = some gt
            then record_quantity it else 0) := by
  unfold stepInv record_quantity
  cases hq : quantityCol it.data with
  | none => simp
  | some qc =>
      cases hc : classify_workbook it.workbook with
      | none => simp [hc]
      | some gt1 =>
          by_cases hl : normalize_location it.location = loc
          · rw [hl, dictGetD_dictSet_self]
            by_cases hg : gt1 = gt
            · rw [hg, dictGetD_dictSet_self]
              simp [hg]
            · rw [dictGetD_dictSet_ne _ _ _ _ _ hg]
              simp [hg]
          · rw [dictGetD_dictSet_ne _ _ _ _ _ hl]
            simp [hl]

theorem foldl_stepInv_sum (items : List InventoryItem) :
    ∀ (acc : Snapshot) (loc gt : String),
      dictGetD (dictGetD (items.foldl stepInv acc) loc []) gt 0
        = dictGetD (dictGetD acc loc []) gt 0 +
            ((items.filter (fun it =>
                normalize_location it.location = loc ∧
                  classify_workbook it.workbook = some gt)).map record_quantity).sum := by
  induction items with
  | nil => intro acc loc gt; simp
  | cons it rest ih =>
      intro acc loc gt
      rw [List.foldl_cons, ih (stepInv acc it) loc gt, stepInv_getD]
      by_cases hm : normalize_location it.location = loc ∧
          classify_workbook it.workbook = some gt
      · simp [List.filter_cons, hm]
        omega
      · simp [List.filter_cons, hm]

/-- The classification never yields a label outside the closed gift-type
set. -/
theorem classify_not_mem (w gt : String)
    (h : gt ∉ (["birthday", "anniversary", "service_completion"] : List String)) :
    classify_workbook w ≠ some gt := by
  unfold classify_workbook
  simp only [List.mem_cons, List.not_mem_nil, or_false, not_or] at h
  split
  · simp [Ne.symm h.1]
  · split
    · simp [Ne.symm h.2.1]
    · split
      · simp [Ne.symm h.2.2]
      · simp

/-- Every gift-type key of the snapshot that is outside the closed set reads
as 0. -/
theorem snapshot_outside_zero (items : List InventoryItem) (loc gt : String)
    (h : gt ∉ (["birthday", "anniversary", "service_completion"] : List String)) :
    dictGetD (dictGetD (buildInventorySummary items) loc []) gt 0 = 0 := by
  unfold buildInventorySummary
  rw [foldl_stepInv_sum]
  have hnil : items.filter (fun it =>
      normalize_location it.location = loc ∧ classify_workbook it.workbook = some gt) = [] := by
    apply List.filter_eq_nil_iff.mpr
    intro it _
    simp [classify_not_mem it.workbook gt h]
  rw [hnil]
  simp [dictGetD, dictGet]

/-- A gift type outside the closed set reads as stock 0 from any entry the
location-filtered snapshot lookup returns. -/
theorem filtered_stock_zero (items : List InventoryItem) (nloc : String)
    (li : List (String × Int)) (gt : String)
    (h : gt ∉ (["birthday", "anniversary", "service_completion"] : List String))
    (hl : dictGet (get_current_inventory_by_location items (some nloc)) nloc = some li) :
    dictGetD li gt 0 = 0 := by
  have hl2 : dictGet
      (if nloc = "" then buildInventorySummary items
        else [(normalize_location (Value.str nloc),
                dictGetD (buildInventorySummary items) (normalize_location (Value.str nloc)) [])])
      nloc = some li := hl
  by_cases he : nloc = ""
  · rw [if_pos he] at hl2
    have h3 : dictGetD (dictGetD (buildInventorySummary items) nloc []) gt 0 = 0 :=
      snapshot_outside_zero items nloc gt h
    have h4 : dictGetD (buildInventorySummary items) nloc [] = li := by
      rw [dictGetD, hl2]
      rfl
    rw [h4] at h3
    exact h3
  · rw [if_neg he] at hl2
    unfold dictGet at hl2
    by_cases hn : normalize_location (Value.str nloc) = nloc
    · rw [if_pos hn] at hl2
      have h2 : li = dictGetD (buildInventorySummary items) (normalize_location (Value.str nloc)) [] := by
        exact ((Option.some.injEq _ _).mp hl2).symm
      rw [h2, hn]
      exact snapshot_outside_zero items nloc gt h
    · rw [if_neg hn] at hl2
      simp [dictGet] at hl2

/-! Helper lemmas about the milestone counting fold. -/

theorem countRow_birthday (dp : String → Option Int) (lc : String)
    (a b c d e : Option String) (tm : Int) (acc : MilestoneCounts) (row : Record) :
    (countRow dp lc a b c d e tm acc row).birthday
      = if monthFromCols dp a b row = some tm then bump acc.birthday (rowLocation lc row)
        else acc.birthday := rfl

theorem foldl_count_birthday_sum (dp : String → Option Int) (lc : String)
    (a b c d e : Option String) (tm : Int) :
    ∀ (rows : List Record) (acc : MilestoneCounts),
      sumCounts ((rows.foldl (countRow dp lc a b c d e tm) acc).birthday)
        = sumCounts acc.birthday +
            (rows.filter (fun r => monthFromCols dp a b r = some tm)).length := by
  intro rows
  induction rows with
  | nil => intro acc; simp
  | cons r rest ih =>
      intro acc
      rw [List.foldl_cons, ih (countRow dp lc a b c d e tm acc r)]
      by_cases hm : monthFromCols dp a b r = some tm
      · rw [countRow_birthday, if_pos hm, sumCounts_bump]
        simp [List.filter_cons, hm]
        omega
      · rw [countRow_birthday, if_neg hm]
        simp [List.filter_cons, hm]

theorem countRow_service (dp : String → Option Int) (lc : String)
    (a b c d e : Option String) (tm : Int) (acc : MilestoneCounts) (row : Record) :
    (countRow dp lc a b c d e tm acc row).service
      = if monthFromCols dp d e row = some tm then bump acc.service (rowLocation lc row)
        else acc.service := rfl

theorem foldl_count_service_sum (dp : String → Option Int) (lc : String)
    (a b c d e : Option String) (tm : Int) :
    ∀ (rows : List Record) (acc : MilestoneCounts),
      sumCounts ((rows.foldl (countRow dp lc a b c d e tm) acc).service)
        = sumCounts acc.service +
            (rows.filter (fun r => monthFromCols dp d e r = some tm)).length := by
  intro rows
  induction rows with
  | nil => intro acc; simp
  | cons r rest ih =>
      intro acc
      rw [List.foldl_cons, ih (countRow dp lc a b c d e tm acc r)]
      by_cases hm : monthFromCols dp d e r = some tm
      · rw [countRow_service, if_pos hm, sumCounts_bump]
        simp [List.filter_cons, hm]
        omega
      · rw [countRow_service, if_neg hm]
        simp [List.filter_cons, hm]

/-! Helper lemmas about the restock simulator. -/

theorem calc_ok_char (dp : String → Option Int) (ms : List Record)
    (inv : List InventoryItem) (loc gt : String) (mm : Nat) (th : Int) (cm cy : Int)
    (li : List (String × Int))
    (h : dictGet
        (get_current_inventory_by_location inv (some (normalize_location (Value.str loc))))
        (normalize_location (Value.str loc)) = some li) :
    calculate_months_until_restock dp ms inv loc gt mm th cm cy
      = RestockOutcome.ok
          (restockProjectionOf loc (normalize_location (Value.str loc)) gt
            (monthUsage dp ms gt (normalize_location (Value.str loc)) cm cy)
            (mkLedgerEntry cm cy) mm th (dictGetD li gt 0)) := by
  unfold calculate_months_until_restock
  rw [h]

theorem calc_error_char (dp : String → Option Int) (ms : List Record)
    (inv : List InventoryItem) (loc gt : String) (mm : Nat) (th : Int) (cm cy : Int)
    (h : dictGet
        (get_current_inventory_by_location inv (some (normalize_location (Value.str loc))))
        (normalize_location (Value.str loc)) = Option.none) :
    calculate_months_until_restock dp ms inv loc gt mm th cm cy
      = RestockOutcome.error ("No inventory found for location: " ++ loc)
          (normalize_location (Value.str loc)) := by
  unfold calculate_months_until_restock
  rw [h]

/-! The claims. -/

/-- C1: the claim says the restock simulator returns the
`no inventory found for location` error result exactly when the location has
no inventory entry, instead of assuming stock zero.  The code violates this:
the location-filtered snapshot always contains the normalized key (with an
empty mapping when nothing matched, line 176), so the membership test of
line 292 never fires and the simulator proceeds with an assumed stock of 0.
This theorem evaluates the simulator at the failing input — location
`Pune` with an inventory dataset containing no record at all — and shows it
returns a normal projection with `current_stock = 0` (and an immediate
restock at offset 0) rather than the error result the claim requires. -/
theorem claim_C1_code_bug :
    (calculate_months_until_restock dp0 [] [] "Pune" "birthday" 12
        LOW_INVENTORY_THRESHOLD 1 2025).isOk = true ∧
    (calculate_months_until_restock dp0 [] [] "Pune" "birthday" 12
        LOW_INVENTORY_THRESHOLD 1 2025).stockOf = 0 ∧
    (calculate_months_until_restock dp0 [] [] "Pune" "birthday" 12
        LOW_INVENTORY_THRESHOLD 1 2025).monthsOf = some 0 := by
  decide

/-- C5 counterexample: the claim says whitespace-only input normalizes to
`Unknown`; in the code the falsy test happens before stripping, so a
whitespace-only string is truthy, is stripped to the empty string, misses the
alias table and is returned as the empty string. -/
theorem claim_C5_counterexample :
    normalize_location (Value.str "   ") = "" ∧
      normalize_location (Value.str "   ") ≠ "Unknown" := by
  decide

/-- C5 amended: null and empty input normalize to `Unknown`; any non-empty
input (whitespace-only included) is stripped and looked up in the alias
table by exact case-sensitive match with the stripped input itself as the
fallback — so whitespace-only input yields the empty string, not `Unknown` —
and for every alias pair of the table the alias and its canonical name
normalize identically.  The function is total, so it never fails. -/
theorem claim_C5_amended :
    normalize_location Value.none = "Unknown" ∧
    normalize_location (Value.str "") = "Unknown" ∧
    (∀ s : String, s ≠ "" → normalize_location (Value.str s) = aliasGetD (pyStrip s)) ∧
    (∀ p ∈ LOCATION_ALIASES,
      normalize_location (Value.str p.1) = normalize_location (Value.str p.2)) := by
  refine ⟨by decide, by decide, ?_, by decide⟩
  intro s hs
  have ht : (Value.str s).truthy = true := by simp [Value.truthy, hs]
  simp [normalize_location, ht, Value.isNa, Value.toPyStr]

/-- C5 witness: the amended theorem applied to the concrete inputs
`" YIT "` (stripped, then alias lookup) and the alias pair
`YIT` / `Indore-YASH IT Park-SC-DC`. -/
theorem claim_C5_witness :
    normalize_location (Value.str " YIT ") = aliasGetD "YIT" ∧
    normalize_location (Value.str "YIT")
      = normalize_location (Value.str "Indore-YASH IT Park-SC-DC") := by
  constructor
  · have h := claim_C5_amended.2.2.1 " YIT " (by decide)
    rw [h]
    decide
  · exact claim_C5_amended.2.2.2 ("YIT", "Indore-YASH IT Park-SC-DC") (by decide)

/-- C7: the three mappings returned by `calculate_monthly_milestone_counts`
depend only on the target month; the target year parameter is accepted and
ignored, so any two years give identical results. -/
theorem claim_C7 (dp : String → Option Int) (records : List Record)
    (target_month y1 y2 : Int) :
    calculate_monthly_milestone_counts dp records target_month y1
      = calculate_monthly_milestone_counts dp records target_month y2 := rfl

/-- C9: in the snapshot built by `get_current_inventory_by_location`, the
quantity read for every (normalized location, gift type) pair equals the sum
of the parsed quantities of every inventory record that normalizes to that
location and whose workbook label classifies to that gift type — summed
across repeated records, with non-numeric, missing or absent quantity cells
contributing zero. -/
theorem claim_C9 (items : List InventoryItem) (loc gt : String) :
    dictGetD (dictGetD (get_current_inventory_by_location items Option.none) loc []) gt 0
      = ((items.filter (fun it =>
            normalize_location it.location = loc ∧
              classify_workbook it.workbook = some gt)).map record_quantity).sum := by
  show dictGetD (dictGetD (buildInventorySummary items) loc []) gt 0 = _
  unfold buildInventorySummary
  rw [foldl_stepInv_sum]
  simp [dictGetD, dictGet]

/-- C2 counterexample: the claim says that when the stock never drops
strictly below the threshold within the horizon the returned
`months_until_restock` is the unset/None sentinel.  On a concrete no-breach
run (stock 100, zero usage, horizon 3) the code instead returns the horizon
itself, `3`, never the sentinel — while the ledger does contain exactly 3
entries. -/
theorem claim_C2_counterexample :
    (calculate_months_until_restock dp0 [] invPune100 "Pune" "birthday" 3
        LOW_INVENTORY_THRESHOLD 1 2025).ledgerOf.length = 3 ∧
    (calculate_months_until_restock dp0 [] invPune100 "Pune" "birthday" 3
        LOW_INVENTORY_THRESHOLD 1 2025).monthsOf ≠ Option.none ∧
    (calculate_months_until_restock dp0 [] invPune100 "Pune" "birthday" 3
        LOW_INVENTORY_THRESHOLD 1 2025).monthsOf = some 3 := by
  decide

/-- C2 amended: in every simulation run in which the remaining stock never
drops strictly below the threshold during the horizon, the ledger contains
exactly `max_months` entries and the returned `months_until_restock` is set
to `max_months` itself, with `restock_status` equal to
`not_needed_within_projection` (the None sentinel of the loop variable is
replaced before returning). -/
theorem claim_C2_amended (dp : String → Option Int) (ms : List Record)
    (inv : List InventoryItem) (loc gt : String) (mm : Nat) (th cm cy : Int)
    (hok : (calculate_months_until_restock dp ms inv loc gt mm th cm cy).isOk = true)
    (hnb : ∀ i, i < mm →
      ¬((calculate_months_until_restock dp ms inv loc gt mm th cm cy).stockOf -
          (sumUsage (monthUsage dp ms gt (normalize_location (Value.str loc)) cm cy)
            0 (i + 1) : Int) < th)) :
    (calculate_months_until_restock dp ms inv loc gt mm th cm cy).monthsOf = some mm ∧
    (calculate_months_until_restock dp ms inv loc gt mm th cm cy).statusOf
      = "not_needed_within_projection" ∧
    (calculate_months_until_restock dp ms inv loc gt mm th cm cy).ledgerOf.length = mm := by
  cases hmatch : dictGet
      (get_current_inventory_by_location inv (some (normalize_location (Value.str loc))))
      (normalize_location (Value.str loc)) with
  | none =>
      rw [calc_error_char dp ms inv loc gt mm th cm cy hmatch] at hok
      simp [RestockOutcome.isOk] at hok
  | some li =>
      have hc := calc_ok_char dp ms inv loc gt mm th cm cy li hmatch
      rw [hc] at hnb ⊢
      simp only [RestockOutcome.monthsOf, RestockOutcome.statusOf, RestockOutcome.ledgerOf,
        RestockOutcome.stockOf, restockProjectionOf] at hnb ⊢
      have hs := simLoop_no_breach
        (monthUsage dp ms gt (normalize_location (Value.str loc)) cm cy)
        (mkLedgerEntry cm cy) th mm 0 (dictGetD li gt 0) (by
          intro i hi
          exact hnb i hi)
      refine ⟨?_, ?_, ?_⟩
      · rw [hs.1]
        rfl
      · rw [hs.1]
      · exact hs.2

/-- C2 witness: the amended theorem applied to the concrete no-breach run of
the counterexample (stock 100, zero usage, horizon 3, threshold 40). -/
theorem claim_C2_witness :
    (calculate_months_until_restock dp0 [] invPune100 "Pune" "birthday" 3
        LOW_INVENTORY_THRESHOLD 1 2025).monthsOf = some 3 ∧
    (calculate_months_until_restock dp0 [] invPune100 "Pune" "birthday" 3
        LOW_INVENTORY_THRESHOLD 1 2025).statusOf = "not_needed_within_projection" ∧
    (calculate_months_until_restock dp0 [] invPune100 "Pune" "birthday" 3
        LOW_INVENTORY_THRESHOLD 1 2025).ledgerOf.length = 3 :=
  claim_C2_amended dp0 [] invPune100 "Pune" "birthday" 3
    LOW_INVENTORY_THRESHOLD 1 2025 (by decide) (by decide)

/-- C3: in every simulation run that returns a normal projection, if the
running balance first drops strictly below the threshold at month offset `k`
within the horizon (a balance exactly equal to the threshold is not a
breach), then the simulation stops right after appending that month's entry:
the ledger contains exactly `k + 1` entries (offsets 0..k),
`months_until_restock` equals `k`, and the status reports a needed restock. -/
theorem claim_C3 (dp : String → Option Int) (ms : List Record)
    (inv : List InventoryItem) (loc gt : String) (mm : Nat) (th cm cy : Int) (k : Nat)
    (hok : (calculate_months_until_restock dp ms inv loc gt mm th cm cy).isOk = true)
    (hk : k < mm)
    (hbefore : ∀ i, i < k →
      ¬((calculate_months_until_restock dp ms inv loc gt mm th cm cy).stockOf -
          (sumUsage (monthUsage dp ms gt (normalize_location (Value.str loc)) cm cy)
            0 (i + 1) : Int) < th))
    (hat : (calculate_months_until_restock dp ms inv loc gt mm th cm cy).stockOf -
        (sumUsage (monthUsage dp ms gt (normalize_location (Value.str loc)) cm cy)
          0 (k + 1) : Int) < th) :
    (calculate_months_until_restock dp ms inv loc gt mm th cm cy).monthsOf = some k ∧
    (calculate_months_until_restock dp ms inv loc gt mm th cm cy).ledgerOf.length = k + 1 ∧
    (calculate_months_until_restock dp ms inv loc gt mm th cm cy).statusOf
      = "restock_needed" := by
  cases hmatch : dictGet
      (get_current_inventory_by_location inv (some (normalize_location (Value.str loc))))
      (normalize_location (Value.str loc)) with
  | none =>
      rw [calc_error_char dp ms inv loc gt mm th cm cy hmatch] at hok
      simp [RestockOutcome.isOk] at hok
  | some li =>
      have hc := calc_ok_char dp ms inv loc gt mm th cm cy li hmatch
      rw [hc] at hbefore hat ⊢
      simp only [RestockOutcome.monthsOf, RestockOutcome.statusOf, RestockOutcome.ledgerOf,
        RestockOutcome.stockOf, restockProjectionOf] at hbefore hat ⊢
      have hs := simLoop_first_breach
        (monthUsage dp ms gt (normalize_location (Value.str loc)) cm cy)
        (mkLedgerEntry cm cy) th k mm 0 (dictGetD li gt 0) hk
        (by intro i hi; exact hbefore i hi) hat
      have hk0 : (0 : Nat) + k = k := by omega
      rw [hk0] at hs
      refine ⟨?_, hs.2, ?_⟩
      · rw [hs.1]
        rfl
      · rw [hs.1]

set_option maxRecDepth 100000 in
/-- C3 witness: the scenario of the claim — starting stock 50, threshold 40
and a usage of 5 in every simulated month — yields a first breach at offset
2 (45, then 40 which is not a breach under strict comparison, then 35), so
`months_until_restock = 2` and the ledger has exactly 3 entries. -/
theorem claim_C3_witness :
    (calculate_months_until_restock dp0 msC3 invC3 "Pune" "birthday" 12
        LOW_INVENTORY_THRESHOLD 1 2025).monthsOf = some 2 ∧
    (calculate_months_until_restock dp0 msC3 invC3 "Pune" "birthday" 12
        LOW_INVENTORY_THRESHOLD 1 2025).ledgerOf.length = 2 + 1 ∧
    (calculate_months_until_restock dp0 msC3 invC3 "Pune" "birthday" 12
        LOW_INVENTORY_THRESHOLD 1 2025).statusOf = "restock_needed" :=
  claim_C3 dp0 msC3 invC3 "Pune" "birthday" 12 LOW_INVENTORY_THRESHOLD 1 2025 2
    (by decide) (by decide) (by decide) (by decide)

theorem restock_entry_eq (loc nloc gt : String) (u : Nat → Nat) (cm cy : Int)
    (mm : Nat) (th stock : Int) :
    ∀ (i : Nat) (e : LedgerEntry),
      (restockProjectionOf loc nloc gt u (mkLedgerEntry cm cy) mm th stock).monthly_breakdown.get? i
        = some e →
      e.usage = u i ∧ e.remaining_stock = stock - (sumUsage u 0 (i + 1) : Int) := by
  intro i e h
  have h2 := simLoop_get? u (mkLedgerEntry cm cy) th mm 0 stock i e h
  rw [h2]
  simp [mkLedgerEntry]

/-- C10: in every ledger returned by the restock simulator, each entry's
usage is a non-negative integer, each entry's remaining stock equals the
starting current stock minus the sum of the usage values of that entry and
all earlier entries, and consequently the remaining stock is non-increasing
across the ledger (it may go negative and is never clamped to zero). -/
theorem claim_C10 (dp : String → Option Int) (ms : List Record)
    (inv : List InventoryItem) (loc gt : String) (mm : Nat) (th cm cy : Int)
    (hok : (calculate_months_until_restock dp ms inv loc gt mm th cm cy).isOk = true) :
    (∀ i (h : i < (calculate_months_until_restock dp ms inv loc gt mm th cm cy).ledgerOf.length),
      (0 : Int) ≤
        (((calculate_months_until_restock dp ms inv loc gt mm th cm cy).ledgerOf.get
            ⟨i, h⟩).usage : Int) ∧
      ((calculate_months_until_restock dp ms inv loc gt mm th cm cy).ledgerOf.get
          ⟨i, h⟩).remaining_stock
        = (calculate_months_until_restock dp ms inv loc gt mm th cm cy).stockOf -
            ledgerUsageSum
              (calculate_months_until_restock dp ms inv loc gt mm th cm cy).ledgerOf (i + 1)) ∧
    (∀ i j (hi : i < (calculate_months_until_restock dp ms inv loc gt mm th cm cy).ledgerOf.length)
        (hj : j < (calculate_months_until_restock dp ms inv loc gt mm th cm cy).ledgerOf.length),
      i ≤ j →
      ((calculate_months_until_restock dp ms inv loc gt mm th cm cy).ledgerOf.get
          ⟨j, hj⟩).remaining_stock ≤
        ((calculate_months_until_restock dp ms inv loc gt mm th cm cy).ledgerOf.get
          ⟨i, hi⟩).remaining_stock) := by
  cases hmatch : dictGet
      (get_current_inventory_by_location inv (some (normalize_location (Value.str loc))))
      (normalize_location (Value.str loc)) with
  | none =>
      rw [calc_error_char dp ms inv loc gt mm th cm cy hmatch] at hok
      simp [RestockOutcome.isOk] at hok
  | some li =>
      have hc := calc_ok_char dp ms inv loc gt mm th cm cy li hmatch
      rw [hc]
      simp only [RestockOutcome.ledgerOf, RestockOutcome.stockOf]
      have hent := restock_entry_eq loc (normalize_location (Value.str loc)) gt
        (monthUsage dp ms gt (normalize_location (Value.str loc)) cm cy) cm cy mm th
        (dictGetD li gt 0)
      have hsum := ledger_take_sum
        (restockProjectionOf loc (normalize_location (Value.str loc)) gt
          (monthUsage dp ms gt (normalize_location (Value.str loc)) cm cy)
          (mkLedgerEntry cm cy) mm th (dictGetD li gt 0)).monthly_breakdown
        (monthUsage dp ms gt (normalize_location (Value.str loc)) cm cy)
        (fun i e h => (hent i e h).1)
      constructor
      · intro i h
        have he := hent i _ (List.get?_eq_get h)
        refine ⟨Int.natCast_nonneg _, ?_⟩
        rw [he.2, hsum (i + 1) (by omega)]
        rfl
      · intro i j hi hj hij
        have hei := hent i _ (List.get?_eq_get hi)
        have hej := hent j _ (List.get?_eq_get hj)
        rw [hei.2, hej.2]
        have hm2 := sumUsage_mono
          (monthUsage dp ms gt (normalize_location (Value.str loc)) cm cy) 0
          (show i + 1 ≤ j + 1 by omega)
        omega

set_option maxRecDepth 100000 in
/-- C10 witness: the invariants applied to the 3-entry ledger of the
stock-50, usage-5 run: the second entry's remaining stock equals the
starting stock minus the first two usage values, and the third entry's
remaining stock is at most the first entry's. -/
theorem claim_C10_witness :
    ((calculate_months_until_restock dp0 msC3 invC3 "Pune" "birthday" 12
        LOW_INVENTORY_THRESHOLD 1 2025).ledgerOf.get ⟨1, by decide⟩).remaining_stock
      = (calculate_months_until_restock dp0 msC3 invC3 "Pune" "birthday" 12
          LOW_INVENTORY_THRESHOLD 1 2025).stockOf -
          ledgerUsageSum (calculate_months_until_restock dp0 msC3 invC3 "Pune" "birthday" 12
            LOW_INVENTORY_THRESHOLD 1 2025).ledgerOf 2 ∧
    ((calculate_months_until_restock dp0 msC3 invC3 "Pune" "birthday" 12
        LOW_INVENTORY_THRESHOLD 1 2025).ledgerOf.get ⟨2, by decide⟩).remaining_stock ≤
      ((calculate_months_until_restock dp0 msC3 invC3 "Pune" "birthday" 12
          LOW_INVENTORY_THRESHOLD 1 2025).ledgerOf.get ⟨0, by decide⟩).remaining_stock :=
  ⟨((claim_C10 dp0 msC3 invC3 "Pune" "birthday" 12 LOW_INVENTORY_THRESHOLD 1 2025
      (by decide)).1 1 (by decide)).2,
   (claim_C10 dp0 msC3 invC3 "Pune" "birthday" 12 LOW_INVENTORY_THRESHOLD 1 2025
      (by decide)).2 0 2 (by decide) (by decide) (by decide)⟩

/-- C4 counterexample: the claim says that when the pre-computed month
column is chosen, a record whose month cell fails to parse falls back to
full date parsing of the corresponding date field.  This record's month cell
is unparseable while its date-of-birth field parses to the target month 3
under the permissive parser, yet the record is not counted: the fallback in
the code is per column, not per record. -/
theorem claim_C4_counterexample :
    extract_month_from_date dpC4 (rowGet recC4 "Date of Birth (as per Records)") = some 3 ∧
    (calculate_monthly_milestone_counts dpC4 [recC4] 3 2025).birthday = [] := by
  decide

/-- C4 amended: for each milestone type carrying a pre-computed month column
(birthdays and service completions), whenever the dataset has that month
column, each record's month is taken solely from `extract_month_from_date`
applied to that record's month cell (which itself tries an integer in 1-12
and then the permissive date parser on that same cell) — the corresponding
date field is never consulted; the date field is used only when the dataset
has no month column at all.  In each case a record whose chosen cell fails
is silently excluded — the aggregation never aborts, and the milestone total
equals the number of records whose chosen cell resolves to the target
month. -/
theorem claim_C4_amended (dp : String → Option Int) (records : List Record)
    (tm ty : Int)
    (hl : (findCol location_fields (dfColumns records)).isSome = true) :
    (∀ c, findCol dob_month_fields (dfColumns records) = some c →
      sumCounts ((calculate_monthly_milestone_counts dp records tm ty).birthday)
        = (records.filter (fun r =>
            extract_month_from_date dp (rowGet r c) = some tm)).length) ∧
    (∀ c, findCol doj_month_fields (dfColumns records) = some c →
      sumCounts ((calculate_monthly_milestone_counts dp records tm ty).service)
        = (records.filter (fun r =>
            extract_month_from_date dp (rowGet r c) = some tm)).length) ∧
    (∀ d, findCol dob_month_fields (dfColumns records) = Option.none →
      findCol dob_fields (dfColumns records) = some d →
      sumCounts ((calculate_monthly_milestone_counts dp records tm ty).birthday)
        = (records.filter (fun r =>
            extract_month_from_date dp (rowGet r d) = some tm)).length) ∧
    (∀ d, findCol doj_month_fields (dfColumns records) = Option.none →
      findCol doj_fields (dfColumns records) = some d →
      sumCounts ((calculate_monthly_milestone_counts dp records tm ty).service)
        = (records.filter (fun r =>
            extract_month_from_date dp (rowGet r d) = some tm)).length) := by
  rcases Option.isSome_iff_exists.mp hl with ⟨lc, hlc⟩
  have hcalc : calculate_monthly_milestone_counts dp records tm ty
      = records.foldl (countRow dp lc (findCol dob_fields (dfColumns records))
          (findCol dob_month_fields (dfColumns records))
          (findCol dom_fields (dfColumns records))
          (findCol doj_fields (dfColumns records))
          (findCol doj_month_fields (dfColumns records)) tm)
        { birthday := [], anniversary := [], service := [] } := by
    unfold calculate_monthly_milestone_counts
    rw [hlc]
  refine ⟨?_, ?_, ?_, ?_⟩
  · intro c hm
    rw [hcalc, foldl_count_birthday_sum]
    simp only [sumCounts, List.map_nil, List.sum_nil, Nat.zero_add]
    simp only [hm, monthFromCols]
  · intro c hm
    rw [hcalc, foldl_count_service_sum]
    simp only [sumCounts, List.map_nil, List.sum_nil, Nat.zero_add]
    simp only [hm, monthFromCols]
  · intro d hnone hdate
    rw [hcalc, foldl_count_birthday_sum]
    simp only [sumCounts, List.map_nil, List.sum_nil, Nat.zero_add]
    simp only [hnone, hdate, monthFromCols]
  · intro d hnone hdate
    rw [hcalc, foldl_count_service_sum]
    simp only [sumCounts, List.map_nil, List.sum_nil, Nat.zero_add]
    simp only [hnone, hdate, monthFromCols]

/-- C4 witness: the amended theorem applied to concrete rosters — a birthday
month column with one March cell and one unparseable cell, a
service-completion month column with the same shape, and a dataset with no
month column whose birth months come from full date parsing of the
date-of-birth column. -/
theorem claim_C4_witness :
    (sumCounts ((calculate_monthly_milestone_counts dpC4 recsC4w 3 2025).birthday)
      = (recsC4w.filter (fun r =>
          extract_month_from_date dpC4 (rowGet r "MM Birth - WE Celebrate") = some 3)).length) ∧
    (sumCounts ((calculate_monthly_milestone_counts dpC4 recsC4s 3 2025).service)
      = (recsC4s.filter (fun r =>
          extract_month_from_date dpC4
            (rowGet r "MM Service Completion - WE Celebrate") = some 3)).length) ∧
    (sumCounts ((calculate_monthly_milestone_counts dpC4 recsC4f 3 2025).birthday)
      = (recsC4f.filter (fun r =>
          extract_month_from_date dpC4
            (rowGet r "Date of Birth (as per Records)") = some 3)).length) :=
  ⟨(claim_C4_amended dpC4 recsC4w 3 2025 (by decide)).1
      "MM Birth - WE Celebrate" (by decide),
   (claim_C4_amended dpC4 recsC4s 3 2025 (by decide)).2.1
      "MM Service Completion - WE Celebrate" (by decide),
   (claim_C4_amended dpC4 recsC4f 3 2025 (by decide)).2.2.1
      "Date of Birth (as per Records)" (by decide) (by decide)⟩

/-- C6 counterexample: the claim says a gift type outside the closed set
makes the restock simulator fail fast.  Called with the gift type `pizza` on
an inventory that stocks Pune, the simulator instead returns a normal
projection (stock 0 for the unknown type, immediate restock at offset 0) —
there is no precondition check. -/
theorem claim_C6_counterexample :
    (calculate_months_until_restock dp0 [] invService "Pune" "pizza" 12
        LOW_INVENTORY_THRESHOLD 1 2025).isOk = true ∧
    (calculate_months_until_restock dp0 [] invService "Pune" "pizza" 12
        LOW_INVENTORY_THRESHOLD 1 2025).stockOf = 0 ∧
    (calculate_months_until_restock dp0 [] invService "Pune" "pizza" 12
        LOW_INVENTORY_THRESHOLD 1 2025).monthsOf = some 0 := by
  decide

/-- C6 amended: the restock simulator performs no gift-type validation.  For
every gift type outside the closed set, any call that passes the location
check returns the normal projection obtained from a starting stock of 0 (the
snapshot never stores an entry for an unknown type) with the monthly usage
drawn from the service-completion counts (the final `else` branch of the
source). -/
theorem claim_C6_amended (dp : String → Option Int) (ms : List Record)
    (inv : List InventoryItem) (loc gt : String) (mm : Nat) (th cm cy : Int)
    (hgt : gt ∉ (["birthday", "anniversary", "service_completion"] : List String))
    (hok : (calculate_months_until_restock dp ms inv loc gt mm th cm cy).isOk = true) :
    calculate_months_until_restock dp ms inv loc gt mm th cm cy
      = RestockOutcome.ok
          (restockProjectionOf loc (normalize_location (Value.str loc)) gt
            (monthUsage dp ms "service_completion" (normalize_location (Value.str loc)) cm cy)
            (mkLedgerEntry cm cy) mm th 0) := by
  cases hmatch : dictGet
      (get_current_inventory_by_location inv (some (normalize_location (Value.str loc))))
      (normalize_location (Value.str loc)) with
  | none =>
      rw [calc_error_char dp ms inv loc gt mm th cm cy hmatch] at hok
      simp [RestockOutcome.isOk] at hok
  | some li =>
      have hc := calc_ok_char dp ms inv loc gt mm th cm cy li hmatch
      have hstock : dictGetD li gt 0 = 0 :=
        filtered_stock_zero inv (normalize_location (Value.str loc)) li gt hgt hmatch
      have h1 : gt ≠ "birthday" := by
        intro hcon
        exact hgt (by simp [hcon])
      have h2 : gt ≠ "anniversary" := by
        intro hcon
        exact hgt (by simp [hcon])
      have husage : monthUsage dp ms gt (normalize_location (Value.str loc)) cm cy
          = monthUsage dp ms "service_completion" (normalize_location (Value.str loc)) cm cy := by
        funext off
        unfold monthUsage usageFor
        simp [h1, h2]
      rw [hc, hstock, husage]

/-- C6 witness: the amended theorem applied to the concrete call of the
counterexample (gift type `pizza` at a stocked location). -/
theorem claim_C6_witness :
    calculate_months_until_restock dp0 [] invService "Pune" "pizza" 12
        LOW_INVENTORY_THRESHOLD 1 2025
      = RestockOutcome.ok
          (restockProjectionOf "Pune" (normalize_location (Value.str "Pune")) "pizza"
            (monthUsage dp0 [] "service_completion" (normalize_location (Value.str "Pune")) 1 2025)
            (mkLedgerEntry 1 2025) 12 LOW_INVENTORY_THRESHOLD 0) :=
  claim_C6_amended dp0 [] invService "Pune" "pizza" 12 LOW_INVENTORY_THRESHOLD 1 2025
    (by decide) (by decide)

/-- C8: for every record set whose columns include a location field and
every valid target month 1-12, the sum of the values of the returned
birthday mapping equals the number of input records whose resolved birth
month equals the target month — each qualifying record is counted exactly
once, and all counts are non-negative by construction (they live in Nat). -/
theorem claim_C8 (dp : String → Option Int) (records : List Record) (tm ty : Int)
    (h1 : 1 ≤ tm) (h2 : tm ≤ 12)
    (hl : (findCol location_fields (dfColumns records)).isSome = true) :
    sumCounts ((calculate_monthly_milestone_counts dp records tm ty).birthday)
      = (records.filter (fun r => resolved_birth_month dp records r = some tm)).length := by
  rcases Option.isSome_iff_exists.mp hl with ⟨lc, hlc⟩
  have hcalc : calculate_monthly_milestone_counts dp records tm ty
      = records.foldl (countRow dp lc (findCol dob_fields (dfColumns records))
          (findCol dob_month_fields (dfColumns records))
          (findCol dom_fields (dfColumns records))
          (findCol doj_fields (dfColumns records))
          (findCol doj_month_fields (dfColumns records)) tm)
        { birthday := [], anniversary := [], service := [] } := by
    unfold calculate_monthly_milestone_counts
    rw [hlc]
  rw [hcalc, foldl_count_birthday_sum]
  simp only [sumCounts, List.map_nil, List.sum_nil, Nat.zero_add]
  simp only [resolved_birth_month]

/-- C8 witness: the conservation law applied to the spec's synthetic roster
(three employees at A with birth months 3, 3, 7; one at B with birth month
3) for target month 3, together with the resulting mapping `A = 2, B = 1`. -/
theorem claim_C8_witness :
    sumCounts ((calculate_monthly_milestone_counts dp0 recsC8 3 2025).birthday)
      = (recsC8.filter (fun r => resolved_birth_month dp0 recsC8 r = some 3)).length ∧
    (calculate_monthly_milestone_counts dp0 recsC8 3 2025).birthday = [("A", 2), ("B", 1)] :=
  ⟨claim_C8 dp0 recsC8 3 2025 (by decide) (by decide) (by decide), by decide⟩

end Vcelebrate
